import Mathlib

/-!
Verification of the books-pipeline repository.

Shallow embedding of the Python sources:
  * `src/utils_isbn.py`   — `clean_isbn`, `is_isbn13`
  * `src/utils_goods.py`  — `normalize_date`, `normalize_language`,
                            `check_currency`, `calculate_quality_metrics`
  * `src/integrate_pipeline.py` — `map_and_normalize` (identity assignment,
                            goodreads branch), `deduplicate_and_create_dims`
                            (survivorship ordering, winner flags), `main`
                            (abort guard).

Strings are modelled over Lean `String`; the Python functions touched by the
claims only case on ASCII characters, so ASCII case-mapping (`Char.toLower`,
`Char.toUpper`) is a faithful model of `str.lower`/`str.upper` on the values
the pipeline compares against (all-ASCII literals).  Missing values
(`None`/`NaN`) are modelled as `Option.none`.  The per-process string hash
`hash` of the Python runtime is modelled as an explicit parameter
`h : String → Int`: each process instance supplies its own `h`.
-/

namespace BooksPipeline

/-- Python `str.strip()` whitespace set (ASCII whitespace). -/
def isPyWhitespace (c : Char) : Bool :=
  c = ' ' || c = '\t' || c = '\n' || c = '\r' || c = '\x0b' || c = '\x0c'

/-- Python `str.strip()`: drop leading and trailing whitespace. -/
def pyStrip (s : String) : String :=
  String.mk (((s.data.dropWhile isPyWhitespace).reverse.dropWhile isPyWhitespace).reverse)

/-- Python `str.lower()` (ASCII case mapping suffices for the pipeline's
comparisons, which are against all-ASCII literals). -/
def pyLower (s : String) : String :=
  String.mk (s.data.map Char.toLower)

/-- Python `str.upper()` (ASCII case mapping, see `pyLower`). -/
def pyUpper (s : String) : String :=
  String.mk (s.data.map Char.toUpper)

/-- The sentinel spellings treated as missing by `clean_isbn`
(`utils_isbn.py` line 16). -/
def NULL_STRINGS : List String := ["none", "null", "nan", "missing"]

/-- `utils_isbn.clean_isbn` (`src/utils_isbn.py` lines 4-26).
`if not isbn_raw` is true for `None` and for the empty string; the regex
`[^0-9]` removes every non-ASCII-digit character. -/
def clean_isbn (isbn_raw : Option String) : Option String :=
  match isbn_raw with
  | none => none
  | some raw =>
    if raw = "" then none
    else
      let s := pyStrip raw
      if pyLower s ∈ NULL_STRINGS then none
      else
        let digits := String.mk (s.data.filter Char.isDigit)
        if digits.length = 13 ∨ digits.length = 10 then some digits
        else none

/-- `utils_isbn.is_isbn13` (`src/utils_isbn.py` lines 28-30):
`bool(value) and len(value) == 13 and value.isdigit()`. -/
def is_isbn13 (value : Option String) : Bool :=
  match value with
  | none => false
  | some v => v ≠ "" && v.length = 13 && v.data.all Char.isDigit

/-!
### Date normalization (`src/utils_goods.py` lines 12-42)

`pd.to_datetime(date_str, errors='coerce')` is an external pandas routine; it
is embedded as a parameter `to_datetime : String → Option ParsedDate`.  A
successful parse yields a `pandas.Timestamp`-like value: its year lies in the
`Timestamp` range [1677, 2262] and month/day, when the code's
`pd.isna(date_obj.month)` / `pd.isna(date_obj.day)` checks see them as
present, are calendar values.  `none` models `NaT`.
-/

/-- A parsed date as observed by `normalize_date` through the
`date_obj.year/.month/.day` attributes, with the `pandas.Timestamp` range
invariants. -/
structure ParsedDate where
  year : Nat
  month : Option Nat
  day : Option Nat
  year_lb : 1677 ≤ year
  year_ub : year ≤ 2262
  month_mem : ∀ m, month = some m → 1 ≤ m ∧ m ≤ 12
  day_mem : ∀ d, day = some d → 1 ≤ d ∧ d ≤ 31

/-- `strftime` zero-padded two-digit field (`%m`, `%d`). -/
def fmt2 (n : Nat) : String :=
  String.mk [Nat.digitChar (n / 10 % 10), Nat.digitChar (n % 10)]

/-- `strftime` four-digit year field (`%Y`); on the `Timestamp` domain
(1677 ≤ year ≤ 2262) this is the zero-padded decimal rendering. -/
def fmt4 (n : Nat) : String :=
  String.mk [Nat.digitChar (n / 1000 % 10), Nat.digitChar (n / 100 % 10),
             Nat.digitChar (n / 10 % 10), Nat.digitChar (n % 10)]

/-- The regex `^\d{4}$` of `utils_goods.py` line 27 (ASCII digits). -/
def fourDigitYear (s : String) : Bool :=
  s.length = 4 && s.data.all Char.isDigit

/-- `utils_goods.normalize_date` (`src/utils_goods.py` lines 12-42),
parameterized by the pandas parser.  `if not date_raw` catches `None` and the
empty string; on `NaT` the stripped string is returned iff it matches
`^\d{4}$`; otherwise the `strftime` branches on `day`/`month` presence. -/
def normalize_date (to_datetime : String → Option ParsedDate)
    (date_raw : Option String) : Option String :=
  match date_raw with
  | none => none
  | some raw =>
    if raw = "" then none
    else
      let date_str := pyStrip raw
      match to_datetime date_str with
      | none =>
        if fourDigitYear date_str then some date_str else none
      | some d =>
        if d.day.isSome then
          some (fmt4 d.year ++ "-" ++ fmt2 (d.month.getD 1) ++ "-" ++ fmt2 (d.day.getD 1))
        else if d.month.isSome then
          some (fmt4 d.year ++ "-" ++ fmt2 (d.month.getD 1))
        else
          some (fmt4 d.year)

/-- The shape `YYYY-MM-DD` (ten characters, digits around two dashes). -/
def isFullDateShape (s : String) : Bool :=
  match s.data with
  | [a, b, c, d, e, f, g, h, i, j] =>
    a.isDigit && b.isDigit && c.isDigit && d.isDigit && e = '-' &&
    f.isDigit && g.isDigit && h = '-' && i.isDigit && j.isDigit
  | _ => false

/-- The shape `YYYY-MM` (seven characters). -/
def isYearMonthShape (s : String) : Bool :=
  match s.data with
  | [a, b, c, d, e, f, g] =>
    a.isDigit && b.isDigit && c.isDigit && d.isDigit && e = '-' &&
    f.isDigit && g.isDigit
  | _ => false

/-- The shape `YYYY` (four digit characters). -/
def isYearShape (s : String) : Bool :=
  match s.data with
  | [a, b, c, d] => a.isDigit && b.isDigit && c.isDigit && d.isDigit
  | _ => false

/-- `utils_goods.VALID_LANGUAGES` (`src/utils_goods.py` line 8). -/
def VALID_LANGUAGES : List String := ["en", "es", "fr", "pt-br", "de", "it"]

/-- `utils_goods.VALID_CURRENCIES` (`src/utils_goods.py` line 10). -/
def VALID_CURRENCIES : List String := ["USD", "EUR", "GBP", "CAD", "JPY", "AUD"]

/-- `utils_goods.normalize_language` (`src/utils_goods.py` lines 44-63). -/
def normalize_language (lang_raw : Option String) : Option String :=
  match lang_raw with
  | none => none
  | some raw =>
    if raw = "" then none
    else
      let lang := pyLower (pyStrip raw)
      if lang ∈ VALID_LANGUAGES then some lang
      else if lang = "eng" then some "en"
      else if lang = "spa" then some "es"
      else none

/-- `utils_goods.check_currency` (`src/utils_goods.py` lines 65-82); `none`
models `None`/`NaN` input. -/
def check_currency (currency_code : Option String) : Bool :=
  match currency_code with
  | none => false
  | some s =>
    let code_str := pyStrip s
    if pyLower code_str ∈ ["nan", "none", ""] then false
    else pyUpper code_str ∈ VALID_CURRENCIES

/-!
### Quality metrics (`src/utils_goods.py` lines 85-121)

Percentages are numpy floats; the only non-finite value the function can
produce is the `NaN` of the unguarded `0/0` at `total_rows == 0`, so a
percentage is modelled as `Option ℚ` with `none` for that `NaN`.  `npDiv`
is numpy division (`none` when the quotient is not a finite number) and
`round2` is Python's `round(x, 2)` (round half to even), modelled exactly on
rationals.
-/

/-- numpy division of the counts: a finite rational, or `none` for the
non-finite result of dividing by zero. -/
def npDiv (a b : ℚ) : Option ℚ :=
  if b = 0 then none else some (a / b)

/-- Round to the nearest integer, halves to the even neighbour
(Python's built-in `round`). -/
def roundHalfEven (q : ℚ) : ℤ :=
  if q - Int.floor q < 1/2 then Int.floor q
  else if 1/2 < q - Int.floor q then Int.floor q + 1
  else if Int.floor q % 2 = 0 then Int.floor q else Int.floor q + 1

/-- Python `round(x, 2)`. -/
def round2 (q : ℚ) : ℚ :=
  (roundHalfEven (q * 100) : ℚ) / 100

/-- A `NormalizedRecord`: one row of the standardized frame produced by
`integrate_pipeline.map_and_normalize` (`src/integrate_pipeline.py`
lines 210-278). -/
structure NRec where
  source_name : String
  title_raw : Option String
  title_normalized : Option String
  authors_raw : Option String
  language_raw : Option String
  publishedDate_raw : Option String
  price_amount : Option ℚ
  price_currency : Option String
  publisher : Option String
  categories_raw : Option String
  pageCount : Option Nat
  isbn13_clean : Option String
  isbn10_clean : Option String
  fecha_publicacion : Option String
  idioma_bcp47 : Option String
  moneda_iso : Option String
  precio : Option ℚ
  book_id : String
  fallback_key : String
  anio_publicacion : String
  deriving DecidableEq

/-- `df[col].notna()` for one row of the standardized frame, for the columns
the pipeline feeds to `calculate_quality_metrics` (`key_cols` of
`standardize_and_merge` plus `idioma_bcp47` and `moneda_iso`).  Other column
names would raise `KeyError` in the source and are unused by the pipeline. -/
def notna (r : NRec) (col : String) : Bool :=
  match col with
  | "book_id" => true
  | "title_normalized" => r.title_normalized.isSome
  | "isbn13_clean" => r.isbn13_clean.isSome
  | "authors_raw" => r.authors_raw.isSome
  | "idioma_bcp47" => r.idioma_bcp47.isSome
  | "moneda_iso" => r.moneda_iso.isSome
  | _ => false

/-- `key_cols` of `integrate_pipeline.standardize_and_merge` (line 292). -/
def KEY_COLUMNS : List String :=
  ["book_id", "title_normalized", "isbn13_clean", "authors_raw"]

/-- The record returned by `calculate_quality_metrics` (timestamp field
omitted: it is wall-clock metadata, not a metric). -/
structure QualityMetrics where
  source : String
  total_rows : Nat
  null_counts : List (String × Nat)
  completeness_pct : List (String × Option ℚ)
  pct_valid_languages_bcp47 : Option ℚ
  pct_valid_currencies_iso4217 : Option ℚ
  deriving DecidableEq

/-- `utils_goods.calculate_quality_metrics` (`src/utils_goods.py`
lines 85-121).  The per-key-column completeness divides by `total_rows`
without a zero guard (line 105); the language and currency percentages carry
the `if total_rows else 0` guard (lines 108-119).  The frame always has a
`moneda_iso` column when called from the pipeline, so the
`'moneda_iso' in df.columns` test is true. -/
def calculate_quality_metrics (rows : List NRec) (source_name : String)
    (key_columns : List String) : QualityMetrics :=
  let total_rows := rows.length
  { source := source_name
    total_rows := total_rows
    null_counts := key_columns.map fun col =>
      (col, (rows.filter fun r => !(notna r col)).length)
    completeness_pct := key_columns.map fun col =>
      (col, (npDiv ((rows.filter fun r => notna r col).length : ℚ) (total_rows : ℚ)).map
              fun q => round2 (q * 100))
    pct_valid_languages_bcp47 :=
      if total_rows = 0 then some 0
      else some (round2 ((((rows.filter fun r => notna r "idioma_bcp47").length : ℚ)
                           / (total_rows : ℚ)) * 100))
    pct_valid_currencies_iso4217 :=
      if total_rows = 0 then some 0
      else some (round2 ((((rows.filter fun r => notna r "moneda_iso").length : ℚ)
                           / (total_rows : ℚ)) * 100)) }

/-!
### Identity assignment (`src/integrate_pipeline.py` lines 265-275)

`str(hash(fallback_key))` uses the Python runtime's string hash, which is
seeded per process; it is modelled as an explicit parameter
`h : String → Int`, one value of `h` per process instance.
-/

/-- `astype(str)` rendering of a possibly-missing string cell: pandas renders
a missing cell as the literal `"None"` (object `None`) or `"nan"` (float
`NaN`); no claim depends on which, the embedding uses `"None"`. -/
def pyStr (o : Option String) : String := o.getD "None"

/-- Python `a or b` on optional strings: `a` when truthy (present and
nonempty), else `b` — the `clean_isbn(...) or clean_isbn(...)` aliasing of
`map_and_normalize` (lines 252-257). -/
def pyOr (a b : Option String) : Option String :=
  match a with
  | some s => if s = "" then b else some s
  | none => b

/-- The `fallback_key` column (lines 267-271): `title_normalized` (missing →
sentinel) joined by `|` to the first comma-delimited token of `authors_raw`
(missing → sentinel). -/
def fallback_key (title_normalized authors_raw : Option String) : String :=
  (title_normalized.getD "__MISSING_TITLE__") ++ "|" ++
  ((authors_raw.map (fun s => (s.splitOn ",").headD "")).getD "__MISSING_AUTHOR__")

/-- First pass of the `book_id` column (line 266):
`isbn13_clean if is_isbn13(isbn13_clean) else NA`. -/
def book_id_pass1 (isbn13_clean : Option String) : Option String :=
  if is_isbn13 isbn13_clean then isbn13_clean else none

/-- Second pass of the `book_id` column (lines 272-275): keep the valid
ISBN-13, else `str(hash(fallback_key))` under the process hash `h`. -/
def assign_book_id (h : String → Int)
    (isbn13_clean title_normalized authors_raw : Option String) : String :=
  match book_id_pass1 isbn13_clean with
  | some v => v
  | none => toString (h (fallback_key title_normalized authors_raw))

/-- A raw goodreads record, the shape produced by
`scrape_goodreads.parse_book_page` and read back by `load_data`. -/
structure RawGR where
  book_id_source : Option String
  book_url : Option String
  title : Option String
  author : Option String
  rating : Option ℚ
  ratings_count : Option Nat
  isbn10 : Option String
  isbn13 : Option String

/-- `integrate_pipeline.map_and_normalize` for `source == 'goodreads'`
(lines 210-278): the branch nulls `language_raw`, `publishedDate_raw`,
`price_amount`, `price_currency`, `publisher`, `categories_raw` and
`pageCount` before field derivation; `row.get('goodreads_isbn13')` /
`row.get('goodreads_isbn10')` are absent from this frame, hence `None`. -/
def map_and_normalize_gr (h : String → Int)
    (to_datetime : String → Option ParsedDate) (raw : RawGR) : NRec :=
  let tn := pyLower (pyStrip (pyStr raw.title))
  let ar := pyStrip (pyStr raw.author)
  let i13 := pyOr (clean_isbn raw.isbn13) (clean_isbn none)
  let i10 := pyOr (clean_isbn raw.isbn10) (clean_isbn none)
  let pc : Option String := none
  let fecha := normalize_date to_datetime none
  { source_name := "goodreads"
    title_raw := raw.title
    title_normalized := some tn
    authors_raw := some ar
    language_raw := none
    publishedDate_raw := none
    price_amount := none
    price_currency := pc
    publisher := none
    categories_raw := none
    pageCount := none
    isbn13_clean := i13
    isbn10_clean := i10
    fecha_publicacion := fecha
    idioma_bcp47 := normalize_language none
    moneda_iso := if check_currency pc then pc else none
    precio := none
    book_id := assign_book_id h i13 (some tn) (some ar)
    fallback_key := fallback_key (some tn) (some ar)
    anio_publicacion := (pyStr fecha).take 4 }

/-!
### Survivorship (`src/integrate_pipeline.py` lines 298-323)

The frame is sorted by `['book_id', 'source_rank', 'title_length',
'fecha_sort']` ascending `[True, True, False, False]` and `drop_duplicates`
keeps the first row per `book_id`, i.e. per group a record minimal in the
lexicographic order (rank ascending, title length descending, date string
descending); full-key ties resolve to the first occurrence.
-/

/-- `source_rank` (line 305): 1 for the enrichment source, 2 otherwise. -/
def source_rank (source_name : String) : Nat :=
  if source_name = "googlebooks" then 1 else 2

/-- `title_length` (line 306): `title_raw.astype(str).str.len()`. -/
def title_length (r : NRec) : Nat := (pyStr r.title_raw).length

/-- `fecha_sort` (line 307): the date string with absent filled by the
minimum sentinel. -/
def fecha_sort (r : NRec) : String := r.fecha_publicacion.getD "0000-00-00"

/-- `a` strictly precedes `b` in the survival sort order: lower source rank,
then longer title, then lexicographically greater date string. -/
def beats (a b : NRec) : Bool :=
  source_rank a.source_name < source_rank b.source_name ||
  (source_rank a.source_name = source_rank b.source_name &&
    (title_length b < title_length a ||
      (title_length a = title_length b && fecha_sort b < fecha_sort a)))

/-- Fold selecting the sort-order-first record, ties to the earlier row. -/
def foldWinner (rs : List NRec) (w0 : NRec) : NRec :=
  rs.foldl (fun w r2 => if beats r2 w then r2 else w) w0

/-- The surviving record of one `book_id` group: the first row of the sorted
group, i.e. the record kept by `drop_duplicates(subset=['book_id'],
keep='first')` for that group. -/
def selectWinner (g : List NRec) : Option NRec :=
  match g with
  | [] => none
  | r :: rs => some (foldWinner rs r)

/-- `df_winners` (lines 309-314): one surviving record per distinct
`book_id`. -/
def winners (rs : List NRec) : List NRec :=
  ((rs.map (fun r => r.book_id)).dedup).filterMap
    (fun k => selectWinner (rs.filter (fun r => r.book_id = k)))

/-- `winner_ids` (line 321). -/
def winner_ids (rs : List NRec) : List String :=
  (winners rs).map (fun r => r.book_id)

/-- `book_source_detail` (lines 320-322): every unified row, flagged by
`df_source_detail['book_id'].isin(winner_ids)`. -/
def source_detail (rs : List NRec) : List (NRec × Bool) :=
  rs.map (fun r => (r, r.book_id ∈ winner_ids rs))

/-- The output artifacts `main` can write, in write order. -/
inductive Artifact where
  | bookSourceDetail
  | dimBook
  | qualityMetrics
  | schemaMd
  deriving DecidableEq

/-- The artifact-write trace of `integrate_pipeline.main` (lines 447-470):
if either loaded source frame is empty the run returns before any write
(lines 455-457); otherwise `deduplicate_and_create_dims` writes the detail
and canonical tables and `generate_docs` the metrics and schema files. -/
def main_effects {α β : Type} (goodreads : List α) (googlebooks : List β) :
    List Artifact :=
  if goodreads.isEmpty || googlebooks.isEmpty then []
  else [Artifact.bookSourceDetail, Artifact.dimBook,
        Artifact.qualityMetrics, Artifact.schemaMd]

/-- Concrete enrichment-source record: title of length 10, date 2020
(the survivorship example of spec §8). -/
def gbShort : NRec where
  source_name := "googlebooks"
  title_raw := some "0123456789"
  title_normalized := some "0123456789"
  authors_raw := some "a"
  language_raw := none
  publishedDate_raw := some "2020"
  price_amount := none
  price_currency := none
  publisher := none
  categories_raw := none
  pageCount := none
  isbn13_clean := some "9780000000001"
  isbn10_clean := none
  fecha_publicacion := some "2020-01-01"
  idioma_bcp47 := none
  moneda_iso := none
  precio := none
  book_id := "9780000000001"
  fallback_key := "0123456789|a"
  anio_publicacion := "2020"

/-- Concrete scrape-source record in the same `book_id` group: title of
length 40, date 2023. -/
def grLong : NRec where
  source_name := "goodreads"
  title_raw := some "0123456789012345678901234567890123456789"
  title_normalized := some "0123456789012345678901234567890123456789"
  authors_raw := some "a"
  language_raw := none
  publishedDate_raw := none
  price_amount := none
  price_currency := none
  publisher := none
  categories_raw := none
  pageCount := none
  isbn13_clean := some "9780000000001"
  isbn10_clean := none
  fecha_publicacion := some "2023-01-01"
  idioma_bcp47 := none
  moneda_iso := none
  precio := none
  book_id := "9780000000001"
  fallback_key := "0123456789012345678901234567890123456789|a"
  anio_publicacion := "2023"

/-- A sample successful parse result (May 7, 2020), used to exercise the
full-date branch of `normalize_date` on a concrete input. -/
def sampleParsed : ParsedDate where
  year := 2020
  month := some 5
  day := some 7
  year_lb := by norm_num
  year_ub := by norm_num
  month_mem := by intro m hm; simp at hm; omega
  day_mem := by intro d hd; simp at hd; omega

end BooksPipeline

namespace BooksPipeline

/-- C7: `clean_isbn` returns absent for stripped-empty or null-sentinel input;
otherwise it keeps exactly the digit characters and accepts the result iff its
length is 10 or 13; and the three round-trip examples hold. -/
theorem C7_clean_isbn (s : String) :
    (pyStrip s = "" ∨ pyLower (pyStrip s) ∈ NULL_STRINGS →
      clean_isbn (some s) = none) ∧
    (pyLower (pyStrip s) ∉ NULL_STRINGS →
      clean_isbn (some s) =
        (if (String.mk ((pyStrip s).data.filter Char.isDigit)).length = 13 ∨
            (String.mk ((pyStrip s).data.filter Char.isDigit)).length = 10
         then some (String.mk ((pyStrip s).data.filter Char.isDigit))
         else none)) ∧
    clean_isbn (some "978-0-13-468599-1") = some "9780134685991" ∧
    clean_isbn (some "nan") = none ∧
    clean_isbn (some "123") = none := by
  refine ⟨?_, ?_, by decide, by decide, by decide⟩
  · intro hcase
    rcases hcase with hempty | hnull
    · by_cases hraw : s = ""
      · simp [clean_isbn, hraw]
      · simp only [clean_isbn, if_neg hraw]
        by_cases hmem : pyLower (pyStrip s) ∈ NULL_STRINGS
        · simp [hmem]
        · simp only [if_neg hmem]
          have : (pyStrip s).data = [] := by
            have := congrArg String.data hempty
            simpa using this
          simp [this]
    · by_cases hraw : s = ""
      · simp [clean_isbn, hraw]
      · simp [clean_isbn, if_neg hraw, hnull]
  · intro hnull
    by_cases hraw : s = ""
    · subst hraw
      decide
    · simp [clean_isbn, if_neg hraw, hnull]

/-- Witness for C7 at concrete inputs: the absent branch at `" nan "` and the
digit-filter branch at a hyphenated ISBN. -/
theorem C7_clean_isbn_witness :
    clean_isbn (some " nan ") = none ∧
    clean_isbn (some "12-3") = none := by
  constructor
  · exact (C7_clean_isbn " nan ").1 (Or.inr (by decide))
  · have h := (C7_clean_isbn "12-3").2.1 (by decide)
    simpa using h

end BooksPipeline

namespace BooksPipeline

theorem digitChar_isDigit (n : Nat) : (Nat.digitChar (n % 10)).isDigit = true := by
  have h : n % 10 < 10 := Nat.mod_lt _ (by norm_num)
  revert h
  generalize n % 10 = k
  intro h
  interval_cases k <;> decide

theorem fmt4_shape (n : Nat) : isYearShape (fmt4 n) = true := by
  simp [isYearShape, fmt4, digitChar_isDigit]

theorem fmt4_fmt2_shape (y m : Nat) :
    isYearMonthShape (fmt4 y ++ "-" ++ fmt2 m) = true := by
  have hdata : (fmt4 y ++ "-" ++ fmt2 m).data =
      [Nat.digitChar (y / 1000 % 10), Nat.digitChar (y / 100 % 10),
       Nat.digitChar (y / 10 % 10), Nat.digitChar (y % 10), '-',
       Nat.digitChar (m / 10 % 10), Nat.digitChar (m % 10)] := by
    simp [fmt4, fmt2, String.data_append]
  simp [isYearMonthShape, hdata, digitChar_isDigit]

theorem fmt4_fmt2_fmt2_shape (y m d : Nat) :
    isFullDateShape (fmt4 y ++ "-" ++ fmt2 m ++ "-" ++ fmt2 d) = true := by
  have hdata : (fmt4 y ++ "-" ++ fmt2 m ++ "-" ++ fmt2 d).data =
      [Nat.digitChar (y / 1000 % 10), Nat.digitChar (y / 100 % 10),
       Nat.digitChar (y / 10 % 10), Nat.digitChar (y % 10), '-',
       Nat.digitChar (m / 10 % 10), Nat.digitChar (m % 10), '-',
       Nat.digitChar (d / 10 % 10), Nat.digitChar (d % 10)] := by
    simp [fmt4, fmt2, String.data_append]
  simp [isFullDateShape, hdata, digitChar_isDigit]

theorem yearShape_of_fourDigit (s : String) (h : fourDigitYear s = true) :
    isYearShape s = true := by
  unfold fourDigitYear at h
  rw [Bool.and_eq_true] at h
  obtain ⟨h1, h2⟩ := h
  have hlen : s.data.length = 4 := by
    rw [String.length_data]
    exact of_decide_eq_true h1
  have hall : ∀ c ∈ s.data, c.isDigit = true := by
    simpa [List.all_eq_true] using h2
  unfold isYearShape
  rcases hd : s.data with _ | ⟨a, _ | ⟨b, _ | ⟨c, _ | ⟨d, _ | ⟨e, t⟩⟩⟩⟩⟩ <;>
    simp_all

/-- C6: `normalize_date` emits `YYYY-MM-DD` when the parse carries a day,
`YYYY-MM` when it carries only a month, the stripped input itself on parse
failure exactly when it is four digits (else absent), and every present
result has one of the shapes `YYYY-MM-DD`, `YYYY-MM`, `YYYY`. -/
theorem C6_normalize_date (to_datetime : String → Option ParsedDate) (raw : String) :
    (∀ d, to_datetime (pyStrip raw) = some d → d.day.isSome = true →
       raw ≠ "" → normalize_date to_datetime (some raw)
         = some (fmt4 d.year ++ "-" ++ fmt2 (d.month.getD 1) ++ "-" ++ fmt2 (d.day.getD 1))) ∧
    (∀ d, to_datetime (pyStrip raw) = some d → d.day = none → d.month.isSome = true →
       raw ≠ "" → normalize_date to_datetime (some raw)
         = some (fmt4 d.year ++ "-" ++ fmt2 (d.month.getD 1))) ∧
    (to_datetime (pyStrip raw) = none → raw ≠ "" →
       normalize_date to_datetime (some raw)
         = if fourDigitYear (pyStrip raw) then some (pyStrip raw) else none) ∧
    (∀ s, normalize_date to_datetime (some raw) = some s →
       (isFullDateShape s || isYearMonthShape s || isYearShape s) = true) := by
  refine ⟨?_, ?_, ?_, ?_⟩
  · intro d hparse hday hraw
    simp [normalize_date, hraw, hparse, hday]
  · intro d hparse hday hmonth hraw
    simp [normalize_date, hraw, hparse, hday, hmonth]
  · intro hparse hraw
    simp [normalize_date, hraw, hparse]
  · intro s hs
    unfold normalize_date at hs
    by_cases hraw : raw = ""
    · simp [hraw] at hs
    · simp only [if_neg hraw] at hs
      cases hparse : to_datetime (pyStrip raw) with
      | none =>
        rw [hparse] at hs
        by_cases h4 : fourDigitYear (pyStrip raw) = true
        · simp [h4] at hs
          subst hs
          simp [yearShape_of_fourDigit _ h4]
        · simp [h4] at hs
      | some d =>
        rw [hparse] at hs
        by_cases hday : d.day.isSome = true
        · simp [hday] at hs
          subst hs
          simp [fmt4_fmt2_fmt2_shape]
        · by_cases hmonth : d.month.isSome = true
          · simp [hday, hmonth] at hs
            subst hs
            simp [fmt4_fmt2_shape]
          · simp [hday, hmonth] at hs
            subst hs
            simp [fmt4_shape]

/-- Witness for C6: the full-date branch at a parser returning May 7, 2020,
and the bare-year fallback at an out-of-range year string. -/
theorem C6_normalize_date_witness :
    normalize_date (fun _ => some sampleParsed) (some "x") = some "2020-05-07" ∧
    normalize_date (fun _ => none) (some "1500") = some "1500" := by
  constructor
  · have h := (C6_normalize_date (fun _ => some sampleParsed) "x").1 sampleParsed
      rfl (by decide) (by decide)
    rw [h]
    decide
  · have h := (C6_normalize_date (fun _ => none) "1500").2.2.1 rfl (by decide)
    rw [h]
    decide

end BooksPipeline

namespace BooksPipeline

/-- C5 counterexample: on the empty record set the per-key-column
completeness percentages are the `NaN` of the unguarded `0/0` division
(`none`), not 0 — so not every percentage field is 0 as the claim states. -/
theorem C5_counterexample :
    (calculate_quality_metrics [] "goodreads" KEY_COLUMNS).completeness_pct
      = [("book_id", (none : Option ℚ)), ("title_normalized", none),
         ("isbn13_clean", none), ("authors_raw", none)] ∧
    (none : Option ℚ) ≠ some 0 := by
  constructor
  · decide
  · decide

/-- C5 amended: `calculate_quality_metrics` is total and never raises; on the
empty record set the guarded valid-language and valid-currency percentages
are 0, the null counts are 0, but every per-key-column completeness
percentage is the non-finite result (`NaN`) of the unguarded `0/0`
division, not 0. -/
theorem C5_quality_metrics_empty (src : String) (key_columns : List String) :
    (calculate_quality_metrics [] src key_columns).total_rows = 0 ∧
    (calculate_quality_metrics [] src key_columns).pct_valid_languages_bcp47 = some 0 ∧
    (calculate_quality_metrics [] src key_columns).pct_valid_currencies_iso4217 = some 0 ∧
    (calculate_quality_metrics [] src key_columns).null_counts
      = key_columns.map (fun c => (c, 0)) ∧
    (calculate_quality_metrics [] src key_columns).completeness_pct
      = key_columns.map (fun c => (c, (none : Option ℚ))) := by
  refine ⟨rfl, by simp [calculate_quality_metrics], by simp [calculate_quality_metrics], ?_, ?_⟩
  · simp [calculate_quality_metrics]
  · simp [calculate_quality_metrics, npDiv]

end BooksPipeline

namespace BooksPipeline

theorem is_isbn13_iff (v : String) :
    is_isbn13 (some v) = true ↔ v.length = 13 ∧ v.data.all Char.isDigit = true := by
  simp only [is_isbn13, Bool.and_eq_true, decide_eq_true_eq, ne_eq]
  constructor
  · rintro ⟨⟨_, hlen⟩, hdig⟩
    exact ⟨hlen, hdig⟩
  · rintro ⟨hlen, hdig⟩
    refine ⟨⟨?_, hlen⟩, hdig⟩
    intro he
    subst he
    simp at hlen

/-- C2: identity assignment is total: a present 13-digit `isbn13_clean`
becomes the `book_id` (independently of title and author), any other record
gets the process hash of the sentinel-filled `title|first-author` fallback
key, and the result always takes one of these two forms. -/
theorem C2_assign_book_id (h : String → Int) (i tn ar : Option String) :
    (∀ v, i = some v → v.length = 13 → v.data.all Char.isDigit = true →
        assign_book_id h i tn ar = v) ∧
    (is_isbn13 i = false →
        assign_book_id h i tn ar = toString (h (fallback_key tn ar))) ∧
    ((∃ v, i = some v ∧ is_isbn13 (some v) = true ∧ assign_book_id h i tn ar = v) ∨
        assign_book_id h i tn ar = toString (h (fallback_key tn ar))) ∧
    (∀ v tn2 ar2, is_isbn13 (some v) = true →
        assign_book_id h (some v) tn ar = assign_book_id h (some v) tn2 ar2) := by
  refine ⟨?_, ?_, ?_, ?_⟩
  · intro v hv hlen hdig
    subst hv
    have hisbn : is_isbn13 (some v) = true := (is_isbn13_iff v).mpr ⟨hlen, hdig⟩
    simp [assign_book_id, book_id_pass1, hisbn]
  · intro hfalse
    simp [assign_book_id, book_id_pass1, hfalse]
  · by_cases hisbn : is_isbn13 i = true
    · left
      cases i with
      | none => simp [is_isbn13] at hisbn
      | some v =>
        exact ⟨v, rfl, hisbn, by simp [assign_book_id, book_id_pass1, hisbn]⟩
    · right
      have hf : is_isbn13 i = false := by
        cases hi : is_isbn13 i with
        | false => rfl
        | true => exact absurd hi hisbn
      simp [assign_book_id, book_id_pass1, hf]
  · intro v tn2 ar2 hisbn
    simp [assign_book_id, book_id_pass1, hisbn]

/-- Witness for C2: a valid ISBN-13 becomes the `book_id`; an ISBN-less
record gets the stringified hash of its fallback key. -/
theorem C2_assign_book_id_witness :
    assign_book_id (fun _ => (7 : Int)) (some "9780134685991") (some "t") (some "a,b")
      = "9780134685991" ∧
    assign_book_id (fun _ => (7 : Int)) none (some "dune") (some "frank herbert,other")
      = toString ((7 : Int)) := by
  constructor
  · exact (C2_assign_book_id (fun _ => 7) (some "9780134685991") (some "t")
      (some "a,b")).1 "9780134685991" rfl (by decide) (by decide)
  · exact (C2_assign_book_id (fun _ => 7) none (some "dune")
      (some "frank herbert,other")).2.1 (by decide)

/-- C1: the fallback `book_id` of an ISBN-less record is `str(hash(...))`
under the runtime's per-process string hash: two process instances with
different hash functions assign different `book_id`s to the same record, so
the assignment is not stable across process instances. -/
theorem C1_fallback_id_process_dependent :
    ∃ h1 h2 : String → Int,
      assign_book_id h1 none (some "dune") (some "frank herbert") ≠
      assign_book_id h2 none (some "dune") (some "frank herbert") := by
  refine ⟨fun _ => 0, fun _ => 1, ?_⟩
  decide

end BooksPipeline

namespace BooksPipeline

theorem beats_irrefl (a : NRec) : beats a a = false := by
  simp [beats]

theorem beats_trans (a b c : NRec) (hab : beats a b = true)
    (hbc : beats b c = true) : beats a c = true := by
  simp only [beats, Bool.or_eq_true, Bool.and_eq_true, decide_eq_true_eq] at hab hbc ⊢
  rcases hab with h1 | ⟨h1, h2⟩ <;> rcases hbc with h3 | ⟨h3, h4⟩
  · left; omega
  · left; omega
  · left; omega
  · right
    refine ⟨by omega, ?_⟩
    rcases h2 with h2 | ⟨h2, h2f⟩ <;> rcases h4 with h4 | ⟨h4, h4f⟩
    · left; omega
    · left; omega
    · left; omega
    · right; exact ⟨by omega, lt_trans h4f h2f⟩

theorem beats_asymm (a b : NRec) (h : beats a b = true) : beats b a = false := by
  cases hba : beats b a with
  | false => rfl
  | true =>
    have := beats_trans a b a h hba
    rw [beats_irrefl] at this
    exact absurd this (by simp)

theorem foldWinner_spec (rs : List NRec) (w0 : NRec) :
    (foldWinner rs w0 = w0 ∨ foldWinner rs w0 ∈ rs) ∧
    (foldWinner rs w0 = w0 ∨ beats (foldWinner rs w0) w0 = true) ∧
    (∀ r ∈ rs, beats r (foldWinner rs w0) = false) := by
  induction rs generalizing w0 with
  | nil => simp [foldWinner]
  | cons r rest ih =>
    have hstep : foldWinner (r :: rest) w0
        = foldWinner rest (if beats r w0 then r else w0) := rfl
    obtain ⟨ihmem, ihord, ihunbeat⟩ := ih (if beats r w0 then r else w0)
    rw [hstep]
    by_cases hbr : beats r w0 = true
    · rw [if_pos hbr] at ihmem ihord ihunbeat ⊢
      refine ⟨?_, ?_, ?_⟩
      · rcases ihmem with he | hm
        · exact Or.inr (by simp [he])
        · exact Or.inr (by simp [hm])
      · rcases ihord with he | hb
        · exact Or.inr (by rw [he]; exact hbr)
        · exact Or.inr (beats_trans _ _ _ hb hbr)
      · intro x hx
        rcases List.mem_cons.mp hx with rfl | hx2
        · rcases ihord with he | hb
          · rw [he]; exact beats_irrefl x
          · exact beats_asymm _ _ hb
        · exact ihunbeat x hx2
    · have hbr' : beats r w0 = false := by
        cases hb : beats r w0 with
        | false => rfl
        | true => exact absurd hb hbr
      rw [if_neg hbr] at ihmem ihord ihunbeat ⊢
      refine ⟨?_, ?_, ?_⟩
      · rcases ihmem with he | hm
        · exact Or.inl he
        · exact Or.inr (by simp [hm])
      · exact ihord
      · intro x hx
        rcases List.mem_cons.mp hx with rfl | hx2
        · rcases ihord with he | hb
          · rw [he]; exact hbr'
          · cases hxw : beats x (foldWinner rest w0) with
            | false => rfl
            | true =>
              have := beats_trans x _ w0 hxw hb
              rw [hbr'] at this
              exact absurd this (by simp)
        · exact ihunbeat x hx2

/-- C3: every non-empty `book_id` group yields exactly one surviving record:
it belongs to the group, no group member strictly precedes it in the
survival order (enrichment source rank 1 first, then longer raw title, then
lexicographically greater date string with absent dates as the sentinel
`"0000-00-00"`), and a singleton group's sole record wins trivially. -/
theorem C3_survivorship (g : List NRec) (k : String) (hne : g ≠ [])
    (hgroup : ∀ r ∈ g, r.book_id = k) :
    ∃ w, selectWinner g = some w ∧ w ∈ g ∧
      (∀ r ∈ g, beats r w = false) ∧
      (∀ w2, selectWinner g = some w2 → w2 = w) ∧
      (∀ r, g = [r] → w = r) := by
  cases g with
  | nil => exact absurd rfl hne
  | cons r0 rs =>
    obtain ⟨hmem, hord, hunbeat⟩ := foldWinner_spec rs r0
    refine ⟨foldWinner rs r0, rfl, ?_, ?_, ?_, ?_⟩
    · rcases hmem with he | hm
      · rw [he]; exact List.mem_cons_self r0 rs
      · exact List.mem_cons_of_mem r0 hm
    · intro x hx
      rcases List.mem_cons.mp hx with rfl | hx2
      · rcases hord with he | hb
        · rw [he]; exact beats_irrefl x
        · exact beats_asymm _ _ hb
      · exact hunbeat x hx2
    · intro w2 hw2
      simpa [selectWinner] using hw2.symm
    · intro r hr
      have h1 : r0 = r := by
        have := congrArg (fun l => List.head? l) hr
        simpa using this
      have h2 : rs = [] := by
        have := congrArg (fun l => List.tail l) hr
        simpa using this
      subst h1
      rw [h2]
      rfl

/-- Witness for C3 at the spec §8 example group: the enrichment-source record
with the shorter title and older date still wins on source rank. -/
theorem C3_survivorship_witness :
    (∃ w, selectWinner [grLong, gbShort] = some w ∧ w ∈ [grLong, gbShort] ∧
      (∀ r ∈ [grLong, gbShort], beats r w = false) ∧
      (∀ w2, selectWinner [grLong, gbShort] = some w2 → w2 = w) ∧
      (∀ r, [grLong, gbShort] = [r] → w = r)) ∧
    selectWinner [grLong, gbShort] = some gbShort := by
  constructor
  · exact C3_survivorship [grLong, gbShort] "9780000000001" (by simp) (by decide)
  · decide

/-- C4 at the failing input: with two records in one `book_id` group the
detail table keeps both rows, but — because `is_winner` is computed by
`book_id.isin(winner_ids)` and every distinct `book_id` has a winner — BOTH
rows are flagged `is_winner`, so 2 flags against 1 distinct group. -/
theorem C4_winner_flag_eval :
    (source_detail [grLong, gbShort]).length = 2 ∧
    ((source_detail [grLong, gbShort]).filter (fun p => p.2)).length = 2 ∧
    (([grLong, gbShort].map (fun r => r.book_id)).dedup).length = 1 := by
  refine ⟨rfl, by decide, by decide⟩

end BooksPipeline

namespace BooksPipeline

/-- C8: when either of the two required source frames is empty (zero rows),
`main` returns at the guard before any artifact write: the output trace is
empty — in particular no canonical table, no detail table and no
documentation file is produced. -/
theorem C8_abort_on_empty_source {α β : Type} (goodreads : List α)
    (googlebooks : List β) (hempty : goodreads = [] ∨ googlebooks = []) :
    main_effects goodreads googlebooks = [] ∧
    Artifact.dimBook ∉ main_effects goodreads googlebooks := by
  have hguard : (goodreads.isEmpty || googlebooks.isEmpty) = true := by
    rcases hempty with rfl | rfl <;> simp
  constructor
  · simp [main_effects, hguard]
  · simp [main_effects, hguard]

/-- Witness for C8: an empty goodreads frame against a one-row googlebooks
frame writes nothing. -/
theorem C8_abort_on_empty_source_witness :
    main_effects ([] : List Nat) ([0] : List Nat) = [] ∧
    Artifact.dimBook ∉ main_effects ([] : List Nat) ([0] : List Nat) :=
  C8_abort_on_empty_source ([] : List Nat) ([0] : List Nat) (Or.inl rfl)

theorem notna_idioma (r : NRec) : notna r "idioma_bcp47" = r.idioma_bcp47.isSome := rfl

theorem notna_moneda (r : NRec) : notna r "moneda_iso" = r.moneda_iso.isSome := rfl

theorem round2_zero : round2 0 = 0 := by
  norm_num [round2, roundHalfEven]

/-- C9: a goodreads-normalized record has absent publication date, language
code, currency code, price amount, publisher, categories and page count; its
date sort key is the minimum sentinel; and the goodreads quality report
always carries 0 for the valid-language and valid-currency percentages. -/
theorem C9_goodreads_branch_nulls (h : String → Int)
    (to_datetime : String → Option ParsedDate) :
    (∀ raw : RawGR,
      (map_and_normalize_gr h to_datetime raw).fecha_publicacion = none ∧
      (map_and_normalize_gr h to_datetime raw).idioma_bcp47 = none ∧
      (map_and_normalize_gr h to_datetime raw).moneda_iso = none ∧
      (map_and_normalize_gr h to_datetime raw).precio = none ∧
      (map_and_normalize_gr h to_datetime raw).publisher = none ∧
      (map_and_normalize_gr h to_datetime raw).categories_raw = none ∧
      (map_and_normalize_gr h to_datetime raw).pageCount = none ∧
      fecha_sort (map_and_normalize_gr h to_datetime raw) = "0000-00-00") ∧
    (∀ rows : List RawGR,
      (calculate_quality_metrics (rows.map (map_and_normalize_gr h to_datetime))
        "goodreads" KEY_COLUMNS).pct_valid_languages_bcp47 = some 0 ∧
      (calculate_quality_metrics (rows.map (map_and_normalize_gr h to_datetime))
        "goodreads" KEY_COLUMNS).pct_valid_currencies_iso4217 = some 0) := by
  have hfields : ∀ raw : RawGR,
      (map_and_normalize_gr h to_datetime raw).fecha_publicacion = none ∧
      (map_and_normalize_gr h to_datetime raw).idioma_bcp47 = none ∧
      (map_and_normalize_gr h to_datetime raw).moneda_iso = none := by
    intro raw
    refine ⟨rfl, rfl, rfl⟩
  refine ⟨?_, ?_⟩
  · intro raw
    obtain ⟨h1, h2, h3⟩ := hfields raw
    exact ⟨h1, h2, h3, rfl, rfl, rfl, rfl, by simp [fecha_sort, h1]⟩
  · intro rows
    have hlangfilter :
        (rows.map (map_and_normalize_gr h to_datetime)).filter
          (fun r => notna r "idioma_bcp47") = [] := by
      rw [List.filter_eq_nil_iff]
      intro r hr
      obtain ⟨raw, _, rfl⟩ := List.mem_map.mp hr
      rw [notna_idioma, (hfields raw).2.1]
      simp
    have hcurfilter :
        (rows.map (map_and_normalize_gr h to_datetime)).filter
          (fun r => notna r "moneda_iso") = [] := by
      rw [List.filter_eq_nil_iff]
      intro r hr
      obtain ⟨raw, _, rfl⟩ := List.mem_map.mp hr
      rw [notna_moneda, (hfields raw).2.2]
      simp
    constructor
    · by_cases hz : (rows.map (map_and_normalize_gr h to_datetime)).length = 0
      · simp [calculate_quality_metrics, hz]
      · simp only [calculate_quality_metrics, if_neg hz, hlangfilter]
        simp [round2_zero]
    · by_cases hz : (rows.map (map_and_normalize_gr h to_datetime)).length = 0
      · simp [calculate_quality_metrics, hz]
      · simp only [calculate_quality_metrics, if_neg hz, hcurfilter]
        simp [round2_zero]

end BooksPipeline

namespace BooksPipeline

theorem dropWhile_all_false {α : Type} (p : α → Bool) (l : List α)
    (h : ∀ c ∈ l, p c = false) : l.dropWhile p = l := by
  cases l with
  | nil => rfl
  | cons a t => simp [List.dropWhile_cons, h a (by simp)]

theorem pyStrip_eq_self (s : String)
    (h : ∀ c ∈ s.data, isPyWhitespace c = false) : pyStrip s = s := by
  unfold pyStrip
  rw [dropWhile_all_false _ _ h,
      dropWhile_all_false _ _ (fun c hc => h c (List.mem_reverse.mp hc)),
      List.reverse_reverse]

theorem digit_not_whitespace (c : Char) (h : c.isDigit = true) :
    isPyWhitespace c = false := by
  cases hw : isPyWhitespace c with
  | false => rfl
  | true =>
    exfalso
    simp only [isPyWhitespace, Bool.or_eq_true, decide_eq_true_eq] at hw
    rcases hw with ((((rfl | rfl) | rfl) | rfl) | rfl) | rfl <;>
      exact absurd h (by decide)

/-- C10: a 13-digit ISBN followed by the float suffix `".0"` (the rendering
of an ISBN column read as a floating-point number) is rejected by
`clean_isbn` — the kept digits number 14 — so such a record loses its
ISBN-based identity and its `book_id` falls back to the hashed
title|author key. -/
theorem C10_float_isbn (d : String) (hlen : d.length = 13)
    (hdig : d.data.all Char.isDigit = true) :
    clean_isbn (some (d ++ ".0")) = none ∧
    (∀ h tn ar, assign_book_id h (clean_isbn (some (d ++ ".0"))) tn ar
        = toString (h (fallback_key tn ar))) := by
  have hdd : d.data.length = 13 := by rw [String.length_data]; exact hlen
  have hdot : (".0" : String).data = ['.', '0'] := rfl
  have hdata : (d ++ ".0").data = d.data ++ ['.', '0'] := by
    rw [String.data_append, hdot]
  have hallmem : ∀ c ∈ (d ++ ".0").data, isPyWhitespace c = false := by
    intro c hc
    rw [hdata] at hc
    rcases List.mem_append.mp hc with hcd | hcd
    · exact digit_not_whitespace c (List.all_eq_true.mp hdig c hcd)
    · simp only [List.mem_cons, List.not_mem_nil, or_false] at hcd
      rcases hcd with rfl | rfl <;> decide
  have hstrip : pyStrip (d ++ ".0") = d ++ ".0" := pyStrip_eq_self _ hallmem
  have hne : (d ++ ".0") ≠ "" := by
    intro he
    have hc := congrArg String.data he
    rw [hdata] at hc
    simp at hc
  have hlow : pyLower (pyStrip (d ++ ".0")) ∉ NULL_STRINGS := by
    rw [hstrip]
    intro hmem
    have hlen15 : (pyLower (d ++ ".0")).data.length = 15 := by
      show ((d ++ ".0").data.map Char.toLower).length = 15
      rw [hdata]
      simp [hdd]
    simp only [NULL_STRINGS, List.mem_cons, List.not_mem_nil, or_false] at hmem
    rcases hmem with he | he | he | he <;>
      (rw [he] at hlen15; exact absurd hlen15 (by decide))
  have hfilter : (pyStrip (d ++ ".0")).data.filter Char.isDigit = d.data ++ ['0'] := by
    rw [hstrip, hdata, List.filter_append]
    congr 1
    · exact List.filter_eq_self.mpr (fun a ha => List.all_eq_true.mp hdig a ha)
  have hflen : (String.mk ((pyStrip (d ++ ".0")).data.filter Char.isDigit)).length = 14 := by
    rw [hfilter, ← String.length_data]
    show (d.data ++ ['0']).length = 14
    simp [hdd]
  have hnot : ¬ ((String.mk ((pyStrip (d ++ ".0")).data.filter Char.isDigit)).length = 13 ∨
      (String.mk ((pyStrip (d ++ ".0")).data.filter Char.isDigit)).length = 10) := by
    intro hor
    rw [hflen] at hor
    rcases hor with hh | hh <;> omega
  have hclean : clean_isbn (some (d ++ ".0")) = none := by
    simp only [clean_isbn]
    rw [if_neg hne, if_neg hlow, if_neg hnot]
  refine ⟨hclean, ?_⟩
  intro h tn ar
  rw [hclean]
  simp [assign_book_id, book_id_pass1, is_isbn13]

/-- Witness for C10 at the concrete float-rendered ISBN string. -/
theorem C10_float_isbn_witness :
    clean_isbn (some "9780134685991.0") = none ∧
    assign_book_id (fun _ => (0 : Int)) (clean_isbn (some "9780134685991.0"))
      (some "t") (some "a") = toString ((0 : Int)) := by
  have hmain := C10_float_isbn "9780134685991" (by decide) (by decide)
  have he : ("9780134685991" : String) ++ ".0" = "9780134685991.0" := by decide
  constructor
  · rw [← he]
    exact hmain.1
  · rw [← he]
    exact hmain.2 (fun _ => 0) (some "t") (some "a")

end BooksPipeline
